import Mathlib

/-!
# pvr.nextpvr: settings manager and live recording stream wrapper

A shallow embedding of `src/Settings.cpp` and `src/buffers/RecordingBuffer.cpp`.

Conventions of the embedding

* `std::string` is a list of characters (`CppString`).
* `int`, `int64_t` and `time_t` values are integers.  In `RecordingBuffer.cpp` the
  conversions to `int` and the 64-bit subtraction and product are explicit: `castInt` and
  `wrapInt64` reduce a value into the 32-bit and the 64-bit two's-complement range.
* The host key/value store, the backend reply and the underlying byte stream are explicit
  arguments; the wall clock is an explicit argument `now`.
* A C++ exception is the `Except.error` result.
-/

namespace NextPVR

/-- A `std::string`. -/
abbrev CppString := List Char

/-! ## Settings.h (declarations used by Settings.cpp) -/

/-- Modelled from the spec: the enumeration `eStreamingMethod` is declared in `Settings.h`,
which is not part of the sources at hand.  The spec (section 3 and 4.1) names its members:
Default, RealTime, Transcoded, ClientTimeshift and the two legacy values RollingFile and
Timeshift. -/
inductive eStreamingMethod where
  | Timeshift
  | RollingFile
  | RealTime
  | Transcoded
  | ClientTimeshift
  | Default
  deriving DecidableEq, Repr

/-- The add-on status codes that `Settings.cpp` returns. -/
inductive ADDON_STATUS where
  | ADDON_STATUS_OK
  | ADDON_STATUS_NEED_RESTART
  | ADDON_STATUS_NEED_SETTINGS
  | ADDON_STATUS_PERMANENT_FAILURE
  deriving DecidableEq, Repr

/-- The constants of `Settings.h` that `Settings.cpp` refers to.  Their values are not part
of the sources at hand, so every result below holds for all values of them. -/
structure Constants where
  DEFAULT_HOST : CppString
  DEFAULT_PORT : Int
  DEFAULT_PIN : CppString
  DEFAULT_GUIDE_ARTWORK : Bool
  DEFAULT_LIVE_STREAM : eStreamingMethod
  NEXTPVRC_MIN_VERSION_STRING : CppString

/-- The host key/value store seen through `kodi::CheckSettingString`, `CheckSettingInt` and
`CheckSettingBoolean`: a lookup gives `none` when the call reports failure.  The two integer
settings that the code casts to `eStreamingMethod` are held as the member the cast yields. -/
structure SettingsStore where
  strings : CppString → Option CppString
  ints : CppString → Option Int
  bools : CppString → Option Bool
  streamingMethods : CppString → Option eStreamingMethod

/-- The member variables of `Settings`. -/
structure Settings where
  m_hostname : CppString
  m_port : Int
  m_PIN : CppString
  m_hostMACAddress : CppString
  m_enableWOL : Bool
  m_timeoutWOL : Int
  m_downloadGuideArtwork : Bool
  m_remoteAccess : Bool
  m_flattenRecording : Bool
  m_kodiLook : Bool
  m_prebuffer : Int
  m_prebuffer5 : Int
  m_liveChunkSize : Int
  m_chunkRecording : Int
  m_resolution : CppString
  m_showRadio : Bool
  m_backendVersion : Int
  m_defaultPrePadding : Int
  m_defaultPostPadding : Int
  m_showNew : Bool
  m_recordingDirectories : List CppString
  m_serverTimeOffset : Int
  m_timeshiftBufferSeconds : Int
  m_liveStreamingMethod : eStreamingMethod
  m_sendSidWithMetadata : Bool
  m_guideArtPortrait : Bool
  m_showRecordingSize : Bool

/-- The call `kodi::CheckSettingString(key, out)`: on success `out` receives the stored
value, on failure `out` keeps its value. -/
def CheckSettingString (store : SettingsStore) (key : CppString) (out : CppString) :
    Bool × CppString :=
  match store.strings key with
  | some v => (true, v)
  | none => (false, out)

/-- The call `kodi::CheckSettingInt(key, out)`. -/
def CheckSettingInt (store : SettingsStore) (key : CppString) (out : Int) : Bool × Int :=
  match store.ints key with
  | some v => (true, v)
  | none => (false, out)

/-- The call `kodi::CheckSettingBoolean(key, out)`. -/
def CheckSettingBoolean (store : SettingsStore) (key : CppString) (out : Bool) :
    Bool × Bool :=
  match store.bools key with
  | some v => (true, v)
  | none => (false, out)

/-! ## Settings::ReadFromAddon -/

/-- Lines 55-60 of `Settings.cpp`: the wake-on-LAN cascade, on the state in which
`m_hostname` and `m_hostMACAddress` have been read. -/
def resolveWOL (store : SettingsStore) (s : Settings) : Settings :=
  if s.m_hostMACAddress.isEmpty then
    { s with m_enableWOL := false }
  else
    let r := CheckSettingBoolean store "wolenable".toList s.m_enableWOL
    let s := { s with m_enableWOL := r.2 }
    if !r.1 then
      { s with m_enableWOL := false }
    else if s.m_hostname = "127.0.0.1".toList ∨ s.m_hostname = "localhost".toList
        ∨ s.m_hostname = "::1".toList then
      { s with m_enableWOL := false }
    else
      s

/-- Lines 31-38: the host name, percent-decoded by `decode` (the routine `uri::decode`,
which is not part of the sources at hand). -/
def readHost (K : Constants) (decode : CppString → CppString) (store : SettingsStore)
    (s : Settings) : Settings :=
  let r := CheckSettingString store "host".toList s.m_hostname
  if r.1 then { s with m_hostname := decode r.2 }
  else { s with m_hostname := K.DEFAULT_HOST }

/-- Lines 41-46: the port. -/
def readPort (K : Constants) (store : SettingsStore) (s : Settings) : Settings :=
  let r := CheckSettingInt store "port".toList s.m_port
  if !r.1 then { s with m_port := K.DEFAULT_PORT } else { s with m_port := r.2 }

/-- Lines 50-51: the PIN. -/
def readPin (K : Constants) (store : SettingsStore) (s : Settings) : Settings :=
  let r := CheckSettingString store "pin".toList s.m_PIN
  if !r.1 then { s with m_PIN := K.DEFAULT_PIN } else { s with m_PIN := r.2 }

/-- Line 53: the MAC address; the result of the call is not inspected. -/
def readHostMac (store : SettingsStore) (s : Settings) : Settings :=
  let r := CheckSettingString store "host_mac".toList s.m_hostMACAddress
  { s with m_hostMACAddress := r.2 }

/-- Lines 62-93: the remaining settings, each with its hard-coded default. -/
def readTuning (K : Constants) (store : SettingsStore) (s : Settings) : Settings :=
  let woltimeout := CheckSettingInt store "woltimeout".toList s.m_timeoutWOL
  let guideartwork := CheckSettingBoolean store "guideartwork".toList s.m_downloadGuideArtwork
  let remoteaccess := CheckSettingBoolean store "remoteaccess".toList s.m_remoteAccess
  let flattenrecording :=
    CheckSettingBoolean store "flattenrecording".toList s.m_flattenRecording
  let kodilook := CheckSettingBoolean store "kodilook".toList s.m_kodiLook
  let prebuffer := CheckSettingInt store "prebuffer".toList s.m_prebuffer
  let prebuffer5 := CheckSettingInt store "prebuffer5".toList s.m_prebuffer5
  let chunklivetv := CheckSettingInt store "chunklivetv".toList s.m_liveChunkSize
  let chunkrecording := CheckSettingInt store "chunkrecording".toList s.m_chunkRecording
  let resolution := CheckSettingString store "resolution".toList s.m_resolution
  let showradio := CheckSettingBoolean store "showradio".toList s.m_showRadio
  { s with
    m_timeoutWOL := if !woltimeout.1 then 20 else woltimeout.2
    m_downloadGuideArtwork :=
      if !guideartwork.1 then K.DEFAULT_GUIDE_ARTWORK else guideartwork.2
    m_remoteAccess := if !remoteaccess.1 then false else remoteaccess.2
    m_flattenRecording := if !flattenrecording.1 then false else flattenrecording.2
    m_kodiLook := if !kodilook.1 then false else kodilook.2
    m_prebuffer := if !prebuffer.1 then 8 else prebuffer.2
    m_prebuffer5 := if !prebuffer5.1 then 0 else prebuffer5.2
    m_liveChunkSize := if !chunklivetv.1 then 64 else chunklivetv.2
    m_chunkRecording := if !chunkrecording.1 then 32 else chunkrecording.2
    m_resolution := if !resolution.1 then "720".toList else resolution.2
    m_showRadio := if !showradio.1 then true else showradio.2 }

/-- The function `Settings::ReadFromAddon`: its statements in source order. -/
def ReadFromAddon (K : Constants) (decode : CppString → CppString) (store : SettingsStore)
    (s : Settings) : Settings :=
  readTuning K store
    (resolveWOL store
      (readHostMac store (readPin K store (readPort K store (readHost K decode store s)))))

/-! ## Settings::SetVersionSpecificSettings -/

/-- Lines 172-206 of `Settings.cpp`: the effective live streaming method, together with the
version strings of the notifications queued on the way. -/
def resolveLiveStreamingMethod (K : Constants) (store : SettingsStore) (s : Settings) :
    Settings × List CppString :=
  let s := { s with m_liveStreamingMethod := K.DEFAULT_LIVE_STREAM }
  match store.streamingMethods "livestreamingmethod".toList with
  | some eStream =>
    let s := { s with m_liveStreamingMethod := eStream }
    if s.m_backendVersion < 50000 then
      if s.m_liveStreamingMethod = eStreamingMethod.Transcoded then
        ({ s with m_liveStreamingMethod := eStreamingMethod.RealTime }, ["5".toList])
      else
        (s, [])
    else if s.m_backendVersion < 50002 then
      ({ s with m_liveStreamingMethod := eStreamingMethod.RealTime }, ["5.0.3".toList])
    else
      let oldMethod := s.m_liveStreamingMethod
      let s :=
        match store.streamingMethods "livestreamingmethod5".toList with
        | some eStream5 => { s with m_liveStreamingMethod := eStream5 }
        | none => s
      let s :=
        if s.m_liveStreamingMethod = eStreamingMethod.Default then
          { s with m_liveStreamingMethod := oldMethod }
        else s
      let s :=
        if s.m_liveStreamingMethod = eStreamingMethod.RollingFile
            ∨ s.m_liveStreamingMethod = eStreamingMethod.Timeshift then
          { s with m_liveStreamingMethod := eStreamingMethod.ClientTimeshift }
        else s
      (s, [])
  | none => (s, [])

/-- Lines 208-228 of `Settings.cpp`: the version-gated flags. -/
def resolveVersionFlags (store : SettingsStore) (s : Settings) : Settings :=
  if s.m_backendVersion ≥ 50000 then
    let s := { s with m_sendSidWithMetadata := false }
    let s :=
      if s.m_PIN ≠ "0000".toList ∧ s.m_remoteAccess = true then
        { s with m_downloadGuideArtwork := false, m_sendSidWithMetadata := true }
      else s
    let r := CheckSettingBoolean store "guideartworkportrait".toList s.m_guideArtPortrait
    let s := if !r.1 then { s with m_guideArtPortrait := false }
             else { s with m_guideArtPortrait := r.2 }
    let r := CheckSettingBoolean store "recordingsize".toList s.m_showRecordingSize
    let s := if !r.1 then { s with m_showRecordingSize := false }
             else { s with m_showRecordingSize := r.2 }
    s
  else
    { s with m_sendSidWithMetadata := true, m_showRecordingSize := false }

/-- The function `Settings::SetVersionSpecificSettings`: the new member state and the
notifications queued. -/
def SetVersionSpecificSettings (K : Constants) (store : SettingsStore) (s : Settings) :
    Settings × List CppString :=
  let r := resolveLiveStreamingMethod K store s
  (resolveVersionFlags store r.1, r.2)

/-- The three-tier table of the specification (section 4.1), for a legacy value `legacy`
and the value `v5` stored under "livestreamingmethod5", if any. -/
def threeTierTable (v : Int) (legacy : eStreamingMethod) (v5 : Option eStreamingMethod) :
    eStreamingMethod :=
  if v < 50000 then
    (if legacy = eStreamingMethod.Transcoded then eStreamingMethod.RealTime else legacy)
  else if v < 50002 then
    eStreamingMethod.RealTime
  else
    let chosen :=
      match v5 with
      | some m => if m = eStreamingMethod.Default then legacy else m
      | none => legacy
    if chosen = eStreamingMethod.RollingFile ∨ chosen = eStreamingMethod.Timeshift then
      eStreamingMethod.ClientTimeshift
    else chosen

/-! ## Settings::ReadBackendSettings -/

/-- The C++ exceptions that the embedded code can raise. -/
inductive CppException where
  | out_of_range
  deriving DecidableEq, Repr

/-- The call `s.substr(pos, n)` of `std::string`: it throws `std::out_of_range` when `pos`
exceeds the length of `s`, and otherwise gives the at most `n` characters from `pos` on. -/
def substr (s : CppString) (pos n : Nat) : Except CppException CppString :=
  if pos > s.length then Except.error CppException.out_of_range
  else Except.ok ((s.drop pos).take n)

/-- Lines 155-158 of `Settings.cpp`: the loop `for (int i = 2; i < 12; i+=2)` that appends
":" and the next two characters. -/
def macLoop (serverMac : CppString) (i : Nat) (macAddress : CppString) :
    Except CppException CppString :=
  if i < 12 then
    match substr serverMac i 2 with
    | Except.error e => Except.error e
    | Except.ok chunk => macLoop serverMac (i + 2) (macAddress ++ (":".toList ++ chunk))
  else Except.ok macAddress
termination_by 12 - i

/-- Lines 154-158 of `Settings.cpp`: the MAC address derived from the `ServerMAC` string. -/
def serverMacAddress (serverMac : CppString) : Except CppException CppString :=
  match substr serverMac 0 2 with
  | Except.error e => Except.error e
  | Except.ok macAddress => macLoop serverMac 2 macAddress

/-- The root element of the parsed `setting.list` document, seen through the lookups
`XMLUtils::GetInt`, `GetBoolean` and `GetString`: `none` when the lookup reports failure. -/
structure SettingList where
  NextPVRVersion : Option Int
  PrePadding : Option Int
  PostPadding : Option Int
  ShowNewInGuide : Option Bool
  RecordingDirectories : Option CppString
  TimeEpoch : Option Int
  SlipSeconds : Option Int
  ServerMAC : Option CppString

/-- The outcome of the request `/service?method=setting.list`: whether `DoRequest` gave
`HTTP_OK`, and the document when `TiXmlDocument::Parse` succeeds on the body. -/
structure BackendReply where
  httpOK : Bool
  document : Option SettingList

/-- What `ReadBackendSettings` leaves behind when it returns: the status, the member state,
the value written to the "host_mac" setting (if any) and whether the "too old" notification
was queued. -/
structure BackendOutcome where
  status : ADDON_STATUS
  settings : Settings
  hostMacWritten : Option CppString
  notified : Bool

/-- Lines 125-149 of `Settings.cpp`: padding defaults, the guide flag, the recording
directories, the clock offset and the time-shift buffer size.  `Split` is
`StringUtils::Split(_, ",", 0)`, which is not part of the sources at hand. -/
def loadServerPreferences (Split : CppString → List CppString) (now : Int)
    (doc : SettingList) (s : Settings) : Settings :=
  { s with
    m_defaultPrePadding := (doc.PrePadding).getD 1
    m_defaultPostPadding := (doc.PostPadding).getD 2
    m_showNew := (doc.ShowNewInGuide).getD false
    m_recordingDirectories :=
      match doc.RecordingDirectories with
      | some recordingDirectories => Split recordingDirectories
      | none => s.m_recordingDirectories
    m_serverTimeOffset :=
      match doc.TimeEpoch with
      | some serverTimestamp => now - serverTimestamp
      | none => s.m_serverTimeOffset
    m_timeshiftBufferSeconds := (doc.SlipSeconds).getD s.m_timeshiftBufferSeconds }

/-- Lines 151-164 of `Settings.cpp`: the server MAC address and its write-back. -/
def storeServerMac (doc : SettingList) (s : Settings) :
    Except CppException BackendOutcome :=
  match doc.ServerMAC with
  | some serverMac =>
    match serverMacAddress serverMac with
    | Except.error e => Except.error e
    | Except.ok macAddress =>
      Except.ok
        { status := ADDON_STATUS.ADDON_STATUS_OK, settings := s,
          hostMacWritten := if s.m_hostMACAddress ≠ macAddress then some macAddress else none,
          notified := false }
  | none =>
    Except.ok
      { status := ADDON_STATUS.ADDON_STATUS_OK, settings := s, hostMacWritten := none,
        notified := false }

/-- The function `Settings::ReadBackendSettings`. -/
def ReadBackendSettings (Split : CppString → List CppString) (now : Int)
    (reply : BackendReply) (s : Settings) : Except CppException BackendOutcome :=
  if reply.httpOK then
    match reply.document with
    | some doc =>
      let s :=
        match doc.NextPVRVersion with
        | some version => { s with m_backendVersion := version }
        | none => s
      if (doc.NextPVRVersion).isSome ∧ s.m_backendVersion < 40204 then
        Except.ok
          { status := ADDON_STATUS.ADDON_STATUS_PERMANENT_FAILURE, settings := s,
            hostMacWritten := none, notified := true }
      else
        storeServerMac doc (loadServerPreferences Split now doc s)
    | none =>
      Except.ok
        { status := ADDON_STATUS.ADDON_STATUS_OK, settings := s, hostMacWritten := none,
          notified := false }
  else
    Except.ok
      { status := ADDON_STATUS.ADDON_STATUS_OK, settings := s, hostMacWritten := none,
        notified := false }

/-! ## Settings::SaveSettings -/

/-- A node of a TinyXML document: an element with its tag, attributes and children, or a
text, comment or other node with its value. -/
inductive TiXmlNode where
  | Element (value : CppString) (attributes : List (CppString × CppString))
      (children : List TiXmlNode)
  | Text (value : CppString)
  | Comment (value : CppString)
  | Unknown (value : CppString)

/-- A TinyXML document: its top-level nodes. -/
abbrev TiXmlDocument := List TiXmlNode

/-- Whether a node is an element with the given tag. -/
def TiXmlNode.isElementNamed (tag : CppString) : TiXmlNode → Bool
  | TiXmlNode.Element value _ _ => decide (value = tag)
  | _ => false

/-- The call `node->SetValue(value)`. -/
def TiXmlNode.SetValue (node : TiXmlNode) (value : CppString) : TiXmlNode :=
  match node with
  | TiXmlNode.Element _ attributes children => TiXmlNode.Element value attributes children
  | TiXmlNode.Text _ => TiXmlNode.Text value
  | TiXmlNode.Comment _ => TiXmlNode.Comment value
  | TiXmlNode.Unknown _ => TiXmlNode.Unknown value

/-- The call `QueryStringAttribute(name, &out)`: the value of the attribute, `none` when the
result is not `TIXML_SUCCESS`. -/
def QueryStringAttribute (attributes : List (CppString × CppString)) (name : CppString) :
    Option CppString :=
  match attributes with
  | [] => none
  | (k, v) :: rest => if k = name then some v else QueryStringAttribute rest name

/-- Whether a node is an element whose "id" attribute equals `name`. -/
def TiXmlNode.hasId (name : CppString) : TiXmlNode → Bool
  | TiXmlNode.Element _ attributes _ =>
    decide (QueryStringAttribute attributes "id".toList = some name)
  | _ => false

/-- How the search loop of `SaveSettings` ends. -/
inductive LoopResult where
  | found (siblings : List TiXmlNode)
  | returnedFalse
  | notFound

/-- The loop moves on from `node`: a later result keeps `node` in front. -/
def LoopResult.after (node : TiXmlNode) : LoopResult → LoopResult
  | LoopResult.found siblings => LoopResult.found (node :: siblings)
  | LoopResult.returnedFalse => LoopResult.returnedFalse
  | LoopResult.notFound => LoopResult.notFound

/-- Lines 245-260 of `Settings.cpp` from a node on: `siblings` are that node and the nodes
after it.  `NextSiblingElement()` steps over nodes that are not elements and visits elements
of any tag. -/
def settingLoop (name value : CppString) : List TiXmlNode → LoopResult
  | [] => LoopResult.notFound
  | node :: rest =>
    match node with
    | TiXmlNode.Element tag attributes children =>
      if QueryStringAttribute attributes "id".toList = some name then
        match children with
        | firstChild :: others =>
          LoopResult.found
            (TiXmlNode.Element tag attributes (firstChild.SetValue value :: others) :: rest)
        | [] => LoopResult.returnedFalse
      else
        LoopResult.after node (settingLoop name value rest)
    | _ => LoopResult.after node (settingLoop name value rest)

/-- The call `rootNode->FirstChildElement("setting")`: the children before the first element
with tag "setting", and that element with everything after it. -/
def fromFirstSetting : List TiXmlNode → List TiXmlNode × List TiXmlNode
  | [] => ([], [])
  | node :: rest =>
    if node.isElementNamed "setting".toList then ([], node :: rest)
    else ((node :: (fromFirstSetting rest).1), (fromFirstSetting rest).2)

/-- Lines 263-267 of `Settings.cpp`: the new element `setting` with attribute `id` and one
text child. -/
def newSetting (name value : CppString) : TiXmlNode :=
  TiXmlNode.Element "setting".toList [("id".toList, name)] [TiXmlNode.Text value]

/-- Lines 243-268 of `Settings.cpp` on the children of the root node: the new children, or
`none` when the function returns false. -/
def updateRoot (name value : CppString) (children : List TiXmlNode) :
    Option (List TiXmlNode) :=
  match settingLoop name value (fromFirstSetting children).2 with
  | LoopResult.found siblings => some ((fromFirstSetting children).1 ++ siblings)
  | LoopResult.returnedFalse => none
  | LoopResult.notFound => some (children ++ [newSetting name value])

/-- What `SaveSettings` leaves behind: the returned value and the document handed to
`SaveFile`, if it is called. -/
structure SaveOutcome where
  result : Bool
  saved : Option TiXmlDocument

/-- Lines 240-270 of `Settings.cpp` on a loaded document: `doc.FirstChildElement("settings")`
picks the first top-level element with tag "settings". -/
def saveLoaded (name value : CppString) : TiXmlDocument → SaveOutcome
  | [] => { result := true, saved := none }
  | node :: rest =>
    match node with
    | TiXmlNode.Element tag attributes children =>
      if tag = "settings".toList then
        match updateRoot name value children with
        | some children1 =>
          { result := true,
            saved := some (TiXmlNode.Element tag attributes children1 :: rest) }
        | none => { result := false, saved := none }
      else
        { result := (saveLoaded name value rest).result,
          saved := ((saveLoaded name value rest).saved).map (fun d => node :: d) }
    | _ =>
      { result := (saveLoaded name value rest).result,
        saved := ((saveLoaded name value rest).saved).map (fun d => node :: d) }

/-- The function `Settings::SaveSettings`; `file` is the document at the settings path, `none`
when `LoadFile` fails. -/
def SaveSettings (file : Option TiXmlDocument) (name value : CppString) : SaveOutcome :=
  match file with
  | some doc => saveLoaded name value doc
  | none => { result := true, saved := none }

/-- A `setting` element with the given id and text. -/
def settingEntry (id text : CppString) : TiXmlNode :=
  TiXmlNode.Element "setting".toList [("id".toList, id)] [TiXmlNode.Text text]

/-- A document with root element `settings` and the given children. -/
def settingsDocument (children : List TiXmlNode) : TiXmlDocument :=
  [TiXmlNode.Element "settings".toList [] children]

/-! ## buffers/RecordingBuffer.cpp -/

/-- The underlying stream as `RecordingBuffer` uses it, over a handle state `H`:
`m_inputHandle.Read`, `GetLength`, `GetPosition`, the base-class calls `Buffer::Close`,
`Buffer::Open(url, 0)` and `Seek(position, whence)`, and `kodi::vfs::FileExists`.  None of
them is part of the sources at hand, so every result below holds for all behaviours. -/
structure StreamOps (H : Type) where
  Read : H → Nat → H × Int
  GetLength : H → Int
  GetPosition : H → Int
  Close : H → H
  Open : H → CppString → Int → H × Bool
  Seek : H → Int → Int → H × Int
  FileExists : CppString → Bool

/-- A state-changing call on the underlying stream, as recorded in a call trace. -/
inductive StreamCall where
  | Read (length : Nat)
  | Close
  | Open (url : CppString) (offset : Int)
  | Seek (position : Int) (whence : Int)
  deriving DecidableEq, Repr

/-- The fields of `kodi::addon::PVRRecording` that `RecordingBuffer::Open` reads. -/
structure PVRRecording where
  duration : Int
  recordingTime : Int
  directory : CppString

/-- The member variables of `RecordingBuffer`. -/
structure RecordingBuffer (H : Type) where
  m_Duration : Int
  m_recordingTime : Int
  m_isLive : Bool
  m_recordingURL : CppString
  m_inputHandle : H

/-- The conversion `(int) x` of a 64-bit value: the value reduced modulo 2^32 into the
range of `int`. -/
def castInt (x : Int) : Int :=
  (x + 2147483648) % 4294967296 - 2147483648

/-- The result of a 64-bit signed operation: the value reduced modulo 2^64 into the range
of `int64_t`. -/
def wrapInt64 (x : Int) : Int :=
  (x + 9223372036854775808) % 18446744073709551616 - 9223372036854775808

/-- The value lies within the range of `int`. -/
def InInt (x : Int) : Prop :=
  -2147483648 ≤ x ∧ x ≤ 2147483647

/-- The value lies within the range of `int64_t`. -/
def InInt64 (x : Int) : Prop :=
  -9223372036854775808 ≤ x ∧ x ≤ 9223372036854775807

instance (x : Int) : Decidable (InInt x) := by
  unfold InInt
  infer_instance

instance (x : Int) : Decidable (InInt64 x) := by
  unfold InInt64
  infer_instance

/-- The function `RecordingBuffer::Duration` at wall-clock time `now` (the value of
`time(nullptr)`): the returned value and the new member state.  `diff` is the `int` that
line 29 converts the 64-bit difference to; `bps` is the truncating quotient of C++, which
for a positive divisor stays within the range of its dividend; the difference and the
product of line 33 are 64-bit operations. -/
def RecordingBuffer.Duration {H : Type} (ops : StreamOps H) (now : Int)
    (b : RecordingBuffer H) : Int × RecordingBuffer H :=
  if b.m_recordingTime ≠ 0 then
    let endTime := now
    let diff := castInt (endTime - b.m_recordingTime - 10)
    if diff > 0 then
      let bps := (ops.GetLength b.m_inputHandle).tdiv diff
      if wrapInt64
          (wrapInt64 (ops.GetLength b.m_inputHandle - ops.GetPosition b.m_inputHandle) * bps)
          < 10 then
        (diff, { b with m_isLive := false })
      else
        (diff, { b with m_isLive := true })
    else
      (0, { b with m_isLive := false })
  else
    (b.m_Duration, b)

/-- The call `StringUtils::Replace(str, oldChar, newChar)`. -/
def Replace (str : CppString) (oldChar newChar : Char) : CppString :=
  str.map (fun c => if c = oldChar then newChar else c)

/-- Lines 71-83 of `RecordingBuffer.cpp`: the directory of the recording replaces the
backend URL when it names a reachable file. -/
def resolveRecordingURL {H : Type} (ops : StreamOps H) (inputUrl : CppString)
    (recording : PVRRecording) : CppString :=
  if !recording.directory.isEmpty then
    let kodiDirectory := Replace recording.directory (Char.ofNat 92) (Char.ofNat 47)
    let kodiDirectory :=
      if "//".toList.isPrefixOf kodiDirectory then "smb:".toList ++ kodiDirectory
      else kodiDirectory
    if ops.FileExists kodiDirectory then kodiDirectory else inputUrl
  else inputUrl

/-- The function `RecordingBuffer::Open` at wall-clock time `now`, with
`m_settings.m_serverTimeOffset` as `serverTimeOffset`: the new member state and the result
of `Buffer::Open`. -/
def RecordingBuffer.Open {H : Type} (ops : StreamOps H) (now serverTimeOffset : Int)
    (b : RecordingBuffer H) (inputUrl : CppString) (recording : PVRRecording) :
    RecordingBuffer H × Bool :=
  let live := decide (recording.duration + recording.recordingTime > now)
  let url := resolveRecordingURL ops inputUrl recording
  let r := ops.Open b.m_inputHandle url 0
  ({ m_Duration := recording.duration,
     m_recordingTime := if live then recording.recordingTime + serverTimeOffset else 0,
     m_isLive := live,
     m_recordingURL := url,
     m_inputHandle := r.1 }, r.2)

/-- What a call of `RecordingBuffer::Read` leaves behind: the returned count, the new member
state and the state-changing calls made on the underlying stream, in order. -/
structure ReadOutcome (H : Type) where
  dataRead : Int
  buffer : RecordingBuffer H
  calls : List StreamCall

/-- The function `RecordingBuffer::Read`.  `dataRead` is the `int` that lines 91 and 99
convert the count of the underlying read to.  The mutex of line 90 and the two log lines,
which only query length and position, leave no mark on the outcome. -/
def RecordingBuffer.Read {H : Type} (ops : StreamOps H) (b : RecordingBuffer H)
    (length : Nat) : ReadOutcome H :=
  let r := ops.Read b.m_inputHandle length
  let dataRead := castInt r.2
  if dataRead = 0 ∧ b.m_isLive = true then
    let position := ops.GetPosition r.1
    let h := ops.Close r.1
    let h := (ops.Open h b.m_recordingURL 0).1
    let h := (ops.Seek h position 0).1
    let r2 := ops.Read h length
    { dataRead := castInt r2.2,
      buffer := { b with m_inputHandle := r2.1 },
      calls := [StreamCall.Read length, StreamCall.Close, StreamCall.Open b.m_recordingURL 0,
        StreamCall.Seek position 0, StreamCall.Read length] }
  else
    { dataRead := dataRead,
      buffer := { b with m_inputHandle := r.1 },
      calls := [StreamCall.Read length] }

/-- An operation on an open stream instance, with the wall-clock time at which it runs. -/
inductive BufferCall where
  | Duration (now : Int)
  | Read (now : Int) (length : Nat)

/-- The wall-clock time of an operation. -/
def BufferCall.time : BufferCall → Int
  | BufferCall.Duration now => now
  | BufferCall.Read now _ => now

/-- The member state after one operation. -/
def RecordingBuffer.step {H : Type} (ops : StreamOps H) (b : RecordingBuffer H) :
    BufferCall → RecordingBuffer H
  | BufferCall.Duration now => (RecordingBuffer.Duration ops now b).2
  | BufferCall.Read _ length => (RecordingBuffer.Read ops b length).buffer

/-- The member state after a sequence of operations. -/
def RecordingBuffer.run {H : Type} (ops : StreamOps H) (b : RecordingBuffer H)
    (calls : List BufferCall) : RecordingBuffer H :=
  calls.foldl (RecordingBuffer.step ops) b

/-- A file of `length` bytes read at `position`: a concrete underlying stream. -/
structure PlainFile where
  length : Int
  position : Int
  deriving DecidableEq, Repr

/-- The operations of `PlainFile`: a read delivers what is left up to the requested count,
opening rewinds to the offset, seeking moves the position, no directory is reachable. -/
def plainFileOps : StreamOps PlainFile :=
  { Read := fun f n =>
      let got := min (n : Int) (f.length - f.position)
      ({ f with position := f.position + got }, got)
    GetLength := fun f => f.length
    GetPosition := fun f => f.position
    Close := fun f => f
    Open := fun f _ offset => ({ f with position := offset }, true)
    Seek := fun f position _ => ({ f with position := position }, position)
    FileExists := fun _ => false }

/-- A closed stream instance on a file of `length` bytes. -/
def freshBuffer (length : Int) : RecordingBuffer PlainFile :=
  { m_Duration := 0, m_recordingTime := 0, m_isLive := false, m_recordingURL := [],
    m_inputHandle := { length := length, position := 0 } }

/-- A recording that starts at time 1000 and lasts 100 seconds, with no directory. -/
def shortRecording : PVRRecording :=
  { duration := 100, recordingTime := 1000, directory := [] }

/-- A stream instance with live start time `start` on a file of `length` bytes read at
`position`. -/
def liveBuffer (start length position : Int) : RecordingBuffer PlainFile :=
  { m_Duration := 3600, m_recordingTime := start, m_isLive := true, m_recordingURL := [],
    m_inputHandle := { length := length, position := position } }

/-! ## Concrete inputs used by the evaluations below -/

/-- A store in which no key is set. -/
def emptyStore : SettingsStore :=
  { strings := fun _ => none, ints := fun _ => none, bools := fun _ => none,
    streamingMethods := fun _ => none }

/-- A store whose only key is "livestreamingmethod5", set to ClientTimeshift. -/
def storeV5Only : SettingsStore :=
  { emptyStore with
    streamingMethods := fun k =>
      if k = "livestreamingmethod5".toList then some eStreamingMethod.ClientTimeshift
      else none }

/-- A member state for a backend of version `v`, everything else cleared. -/
def settingsAt (v : Int) : Settings :=
  { m_hostname := [], m_port := 0, m_PIN := [], m_hostMACAddress := [],
    m_enableWOL := false, m_timeoutWOL := 0, m_downloadGuideArtwork := false,
    m_remoteAccess := false, m_flattenRecording := false, m_kodiLook := false,
    m_prebuffer := 0, m_prebuffer5 := 0, m_liveChunkSize := 0, m_chunkRecording := 0,
    m_resolution := [], m_showRadio := false, m_backendVersion := v,
    m_defaultPrePadding := 0, m_defaultPostPadding := 0, m_showNew := false,
    m_recordingDirectories := [], m_serverTimeOffset := 0, m_timeshiftBufferSeconds := 0,
    m_liveStreamingMethod := eStreamingMethod.Default, m_sendSidWithMetadata := false,
    m_guideArtPortrait := false, m_showRecordingSize := false }

/-- A choice of the `Settings.h` constants for the evaluations: the defaults that the log
message of line 44 and the specification name, and RealTime as default streaming method. -/
def sampleConstants : Constants :=
  { DEFAULT_HOST := "127.0.0.1".toList, DEFAULT_PORT := 8866, DEFAULT_PIN := "0000".toList,
    DEFAULT_GUIDE_ARTWORK := false, DEFAULT_LIVE_STREAM := eStreamingMethod.RealTime,
    NEXTPVRC_MIN_VERSION_STRING := "4.2.4".toList }

/-- A store in which the two version-gated flags are set. -/
def storeFlagsSet : SettingsStore :=
  { emptyStore with
    bools := fun k =>
      if k = "guideartworkportrait".toList then some true
      else if k = "recordingsize".toList then some true
      else none }

/-! ## Theorems -/

theorem resolveVersionFlags_liveStreamingMethod (store : SettingsStore) (s : Settings) :
    (resolveVersionFlags store s).m_liveStreamingMethod = s.m_liveStreamingMethod := by
  unfold resolveVersionFlags
  split
  · simp only []
    repeat' split
    all_goals rfl
  · rfl

/-- The method resolution writes `m_liveStreamingMethod` only. -/
theorem resolveLiveStreamingMethod_frame (K : Constants) (store : SettingsStore)
    (s : Settings) :
    (resolveLiveStreamingMethod K store s).1 =
      { s with m_liveStreamingMethod :=
          (resolveLiveStreamingMethod K store s).1.m_liveStreamingMethod } := by
  unfold resolveLiveStreamingMethod
  cases store.streamingMethods "livestreamingmethod".toList with
  | none => rfl
  | some legacy =>
    simp only []
    split
    · split <;> rfl
    · split
      · rfl
      · cases store.streamingMethods "livestreamingmethod5".toList <;> simp only [] <;>
          (repeat' split) <;> rfl

/-- The wake-on-LAN cascade does not write the host name. -/
theorem resolveWOL_hostname (store : SettingsStore) (s : Settings) :
    (resolveWOL store s).m_hostname = s.m_hostname := by
  unfold resolveWOL
  split
  · rfl
  · simp only []
    split
    · rfl
    · split <;> rfl

/-- The wake-on-LAN cascade does not write the MAC address. -/
theorem resolveWOL_hostMACAddress (store : SettingsStore) (s : Settings) :
    (resolveWOL store s).m_hostMACAddress = s.m_hostMACAddress := by
  unfold resolveWOL
  split
  · rfl
  · simp only []
    split
    · rfl
    · split <;> rfl

/-- The flag that the wake-on-LAN cascade leaves behind. -/
theorem resolveWOL_enableWOL (store : SettingsStore) (s : Settings) :
    (resolveWOL store s).m_enableWOL = true ↔
      (s.m_hostMACAddress ≠ [] ∧ store.bools "wolenable".toList = some true ∧
        ¬ (s.m_hostname = "127.0.0.1".toList ∨ s.m_hostname = "localhost".toList
            ∨ s.m_hostname = "::1".toList)) := by
  unfold resolveWOL CheckSettingBoolean
  by_cases hm : s.m_hostMACAddress = []
  · simp [hm]
  · have hne : s.m_hostMACAddress.isEmpty = false := by
      cases h : s.m_hostMACAddress with
      | nil => exact absurd h hm
      | cons a l => rfl
    rw [hne]
    cases hb : store.bools "wolenable".toList with
    | none => simp
    | some b =>
      by_cases hl : (s.m_hostname = "127.0.0.1".toList ∨ s.m_hostname = "localhost".toList
            ∨ s.m_hostname = "::1".toList)
      · have hif : (if (s.m_hostname = "127.0.0.1".toList ∨ s.m_hostname = "localhost".toList
            ∨ s.m_hostname = "::1".toList) then false else b) = false := by rw [if_pos hl]
        constructor
        · intro h
          simp only [Bool.false_eq_true, Bool.not_true, if_false] at h
          rw [if_pos hl] at h
          exact absurd h (by simp)
        · intro h
          exact absurd hl h.2.2
      · constructor
        · intro h
          simp only [Bool.false_eq_true, Bool.not_true, if_false] at h
          rw [if_neg hl] at h
          exact ⟨hm, by rw [show b = true from h], hl⟩
        · intro h
          simp only [Bool.false_eq_true, Bool.not_true, if_false]
          rw [if_neg hl]
          exact Option.some.inj h.2.1

theorem readHost_hostname (K : Constants) (decode : CppString → CppString)
    (store : SettingsStore) (s : Settings) :
    (readHost K decode store s).m_hostname =
      (match store.strings "host".toList with
       | some h => decode h
       | none => K.DEFAULT_HOST) := by
  unfold readHost CheckSettingString
  cases store.strings "host".toList <;> rfl

theorem readHost_hostMACAddress (K : Constants) (decode : CppString → CppString)
    (store : SettingsStore) (s : Settings) :
    (readHost K decode store s).m_hostMACAddress = s.m_hostMACAddress := by
  unfold readHost CheckSettingString
  cases store.strings "host".toList <;> rfl

theorem readPort_hostname (K : Constants) (store : SettingsStore) (s : Settings) :
    (readPort K store s).m_hostname = s.m_hostname := by
  unfold readPort CheckSettingInt
  cases store.ints "port".toList <;> rfl

theorem readPort_hostMACAddress (K : Constants) (store : SettingsStore) (s : Settings) :
    (readPort K store s).m_hostMACAddress = s.m_hostMACAddress := by
  unfold readPort CheckSettingInt
  cases store.ints "port".toList <;> rfl

theorem readPin_hostname (K : Constants) (store : SettingsStore) (s : Settings) :
    (readPin K store s).m_hostname = s.m_hostname := by
  unfold readPin CheckSettingString
  cases store.strings "pin".toList <;> rfl

theorem readPin_hostMACAddress (K : Constants) (store : SettingsStore) (s : Settings) :
    (readPin K store s).m_hostMACAddress = s.m_hostMACAddress := by
  unfold readPin CheckSettingString
  cases store.strings "pin".toList <;> rfl

theorem readHostMac_hostname (store : SettingsStore) (s : Settings) :
    (readHostMac store s).m_hostname = s.m_hostname := rfl

theorem readHostMac_hostMACAddress (store : SettingsStore) (s : Settings) :
    (readHostMac store s).m_hostMACAddress =
      (match store.strings "host_mac".toList with
       | some m => m
       | none => s.m_hostMACAddress) := by
  unfold readHostMac CheckSettingString
  cases store.strings "host_mac".toList <;> rfl

theorem readTuning_hostname (K : Constants) (store : SettingsStore) (s : Settings) :
    (readTuning K store s).m_hostname = s.m_hostname := rfl

theorem readTuning_hostMACAddress (K : Constants) (store : SettingsStore) (s : Settings) :
    (readTuning K store s).m_hostMACAddress = s.m_hostMACAddress := rfl

/-- C1 (as amended): when the legacy key "livestreamingmethod" is present,
`SetVersionSpecificSettings` leaves `liveStreamingMethod` equal to the three-tier table
(an absent "livestreamingmethod5" key counting like Default); when the legacy key is absent
the result is `DEFAULT_LIVE_STREAM` for every backend version. -/
theorem C1_liveStreamingMethod_three_tier (K : Constants) (store : SettingsStore)
    (s : Settings) :
    (SetVersionSpecificSettings K store s).1.m_liveStreamingMethod =
      match store.streamingMethods "livestreamingmethod".toList with
      | none => K.DEFAULT_LIVE_STREAM
      | some legacy =>
        threeTierTable s.m_backendVersion legacy
          (store.streamingMethods "livestreamingmethod5".toList) := by
  unfold SetVersionSpecificSettings
  simp only [resolveVersionFlags_liveStreamingMethod]
  unfold resolveLiveStreamingMethod threeTierTable
  cases h : store.streamingMethods "livestreamingmethod".toList with
  | none => rfl
  | some legacy =>
    simp only []
    by_cases h1 : s.m_backendVersion < 50000
    · simp only [h1, if_true]
      by_cases h2 : legacy = eStreamingMethod.Transcoded <;> simp [h2]
    · by_cases h2 : s.m_backendVersion < 50002
      · simp [h1, h2]
      · simp only [h1, h2, if_false]
        cases h5 : store.streamingMethods "livestreamingmethod5".toList with
        | none => cases legacy <;> simp
        | some m => cases m <;> cases legacy <;> simp

/-- C1 (counterexample): with the legacy key absent and "livestreamingmethod5" set to
ClientTimeshift, the code gives `DEFAULT_LIVE_STREAM` at version 50002 (RealTime for the
sample constants) instead of the stored "livestreamingmethod5" value; no value of
`DEFAULT_LIVE_STREAM` makes the code give RealTime at version 50000 and ClientTimeshift at
version 50002. -/
theorem C1_absent_legacy_key_breaks_table :
    (SetVersionSpecificSettings sampleConstants storeV5Only
      (settingsAt 50002)).1.m_liveStreamingMethod = eStreamingMethod.RealTime ∧
    ¬ ∃ K : Constants,
      (SetVersionSpecificSettings K storeV5Only (settingsAt 50000)).1.m_liveStreamingMethod
          = eStreamingMethod.RealTime ∧
      (SetVersionSpecificSettings K storeV5Only (settingsAt 50002)).1.m_liveStreamingMethod
          = eStreamingMethod.ClientTimeshift := by
  refine ⟨by decide, ?_⟩
  rintro ⟨K, h1, h2⟩
  have e1 : (SetVersionSpecificSettings K storeV5Only (settingsAt 50000)).1.m_liveStreamingMethod
      = K.DEFAULT_LIVE_STREAM := rfl
  have e2 : (SetVersionSpecificSettings K storeV5Only (settingsAt 50002)).1.m_liveStreamingMethod
      = K.DEFAULT_LIVE_STREAM := rfl
  rw [e1] at h1
  rw [e2, h1] at h2
  exact absurd h2 (by decide)

theorem resolveVersionFlags_below_50000 (store : SettingsStore) (s : Settings)
    (hv : s.m_backendVersion < 50000) :
    resolveVersionFlags store s =
      { s with m_sendSidWithMetadata := true, m_showRecordingSize := false } := by
  unfold resolveVersionFlags
  rw [if_neg (by omega)]

theorem resolveVersionFlags_from_50000 (store : SettingsStore) (s : Settings)
    (hv : 50000 ≤ s.m_backendVersion) :
    (resolveVersionFlags store s).m_guideArtPortrait
        = (store.bools "guideartworkportrait".toList).getD false ∧
    (resolveVersionFlags store s).m_showRecordingSize
        = (store.bools "recordingsize".toList).getD false := by
  unfold resolveVersionFlags CheckSettingBoolean
  rw [if_pos (by omega)]
  cases store.bools "guideartworkportrait".toList <;>
    cases store.bools "recordingsize".toList <;> exact ⟨rfl, rfl⟩

/-- C2 (as amended): for a backend version below 50000, `SetVersionSpecificSettings` leaves
the show-recording-size flag false and the send-sid-with-metadata flag true, and the
guide-artwork-portrait flag keeps its prior value; from version 50000 on the two flags equal
their stored values (false when the key is absent). -/
theorem C2_version_gated_flags (K : Constants) (store : SettingsStore) (s : Settings) :
    (s.m_backendVersion < 50000 →
      (SetVersionSpecificSettings K store s).1.m_guideArtPortrait = s.m_guideArtPortrait ∧
      (SetVersionSpecificSettings K store s).1.m_showRecordingSize = false ∧
      (SetVersionSpecificSettings K store s).1.m_sendSidWithMetadata = true) ∧
    (50000 ≤ s.m_backendVersion →
      (SetVersionSpecificSettings K store s).1.m_guideArtPortrait
        = (store.bools "guideartworkportrait".toList).getD false ∧
      (SetVersionSpecificSettings K store s).1.m_showRecordingSize
        = (store.bools "recordingsize".toList).getD false) := by
  have hframe := resolveLiveStreamingMethod_frame K store s
  have hv : (resolveLiveStreamingMethod K store s).1.m_backendVersion = s.m_backendVersion :=
    (congrArg Settings.m_backendVersion hframe).trans rfl
  have hp : (resolveLiveStreamingMethod K store s).1.m_guideArtPortrait
      = s.m_guideArtPortrait := (congrArg Settings.m_guideArtPortrait hframe).trans rfl
  constructor
  · intro hlt
    have hafter : (SetVersionSpecificSettings K store s).1
        = { (resolveLiveStreamingMethod K store s).1 with
            m_sendSidWithMetadata := true, m_showRecordingSize := false } :=
      resolveVersionFlags_below_50000 store _ (by rw [hv]; exact hlt)
    rw [hafter]
    exact ⟨hp, rfl, rfl⟩
  · intro hge
    exact resolveVersionFlags_from_50000 store _ (by rw [hv]; exact hge)

/-- C2 (as amended) at version 49999 with the portrait flag set before, and at version 50000
with both keys stored as true. -/
theorem C2_version_gated_flags_witness :
    (SetVersionSpecificSettings sampleConstants emptyStore
      { settingsAt 49999 with m_guideArtPortrait := true }).1.m_showRecordingSize = false ∧
    (SetVersionSpecificSettings sampleConstants storeFlagsSet
      (settingsAt 50000)).1.m_guideArtPortrait = true :=
  ⟨((C2_version_gated_flags sampleConstants emptyStore
      { settingsAt 49999 with m_guideArtPortrait := true }).1 (by decide)).2.1,
   ((C2_version_gated_flags sampleConstants storeFlagsSet (settingsAt 50000)).2
      (by decide)).1⟩

/-- C2 (counterexample): for a backend of version 49999 and a prior state in which the
guide-artwork-portrait flag is set, the flag is still set after
`SetVersionSpecificSettings`. -/
theorem C2_portrait_flag_survives_below_50000 :
    (SetVersionSpecificSettings sampleConstants emptyStore
      { settingsAt 49999 with m_guideArtPortrait := true }).1.m_guideArtPortrait = true := by
  decide

/-- C3: after `ReadFromAddon` the host name is the percent-decoded "host" value (or
`DEFAULT_HOST`), the MAC address is the "host_mac" value (or the prior one), and the
wake-on-LAN flag is true exactly when the MAC address is non-empty, "wolenable" is stored
as true and the host name is none of "127.0.0.1", "localhost", "::1". -/
theorem C3_enableWOL_characterised (K : Constants) (decode : CppString → CppString)
    (store : SettingsStore) (s : Settings) :
    let after := ReadFromAddon K decode store s
    after.m_hostname =
        (match store.strings "host".toList with
         | some h => decode h
         | none => K.DEFAULT_HOST) ∧
    after.m_hostMACAddress =
        (match store.strings "host_mac".toList with
         | some m => m
         | none => s.m_hostMACAddress) ∧
    (after.m_enableWOL = true ↔
      (after.m_hostMACAddress ≠ [] ∧ store.bools "wolenable".toList = some true ∧
        ¬ (after.m_hostname = "127.0.0.1".toList ∨ after.m_hostname = "localhost".toList
            ∨ after.m_hostname = "::1".toList))) := by
  intro after
  have h1 : after.m_hostname =
      (readHostMac store (readPin K store (readPort K store
        (readHost K decode store s)))).m_hostname := by
    show (ReadFromAddon K decode store s).m_hostname = _
    unfold ReadFromAddon
    rw [readTuning_hostname, resolveWOL_hostname]
  have h2 : after.m_hostMACAddress =
      (readHostMac store (readPin K store (readPort K store
        (readHost K decode store s)))).m_hostMACAddress := by
    show (ReadFromAddon K decode store s).m_hostMACAddress = _
    unfold ReadFromAddon
    rw [readTuning_hostMACAddress, resolveWOL_hostMACAddress]
  have hwol : after.m_enableWOL =
      (resolveWOL store (readHostMac store (readPin K store (readPort K store
        (readHost K decode store s))))).m_enableWOL := rfl
  refine ⟨?_, ?_, ?_⟩
  · rw [h1, readHostMac_hostname, readPin_hostname, readPort_hostname, readHost_hostname]
  · rw [h2, readHostMac_hostMACAddress, readPin_hostMACAddress, readPort_hostMACAddress,
      readHost_hostMACAddress]
  · rw [hwol, h1, h2]
    exact resolveWOL_enableWOL store _

/-- The six two-character chunks of a string, joined by ":". -/
theorem serverMacAddress_eq (s : CppString) :
    serverMacAddress s =
      if 10 ≤ s.length then
        Except.ok (List.intercalate ":".toList
          ((List.range 6).map (fun k => (s.drop (2 * k)).take 2)))
      else Except.error CppException.out_of_range := by
  have e : (List.range 6) = [0, 1, 2, 3, 4, 5] := by decide
  rw [e]
  by_cases h : 10 ≤ s.length
  · have h2 : ¬ 2 > s.length := by omega
    have h4 : ¬ 4 > s.length := by omega
    have h6 : ¬ 6 > s.length := by omega
    have h8 : ¬ 8 > s.length := by omega
    have h10 : ¬ 10 > s.length := by omega
    rw [if_pos h]
    unfold serverMacAddress
    simp only [substr, gt_iff_lt, Nat.not_lt_zero, if_false, List.drop_zero]
    rw [macLoop]; simp only [substr, h2, if_false, show (2 : Nat) < 12 by decide, if_true]
    rw [macLoop]; simp only [substr, h4, if_false, show (2 + 2 : Nat) < 12 by decide, if_true]
    rw [macLoop]; simp only [substr, h6, if_false, show (2 + 2 + 2 : Nat) < 12 by decide, if_true]
    rw [macLoop]; simp only [substr, h8, if_false, show (2 + 2 + 2 + 2: Nat) < 12 by decide, if_true]
    rw [macLoop]; simp only [substr, h10, if_false, show (2 + 2 + 2 + 2 + 2: Nat) < 12 by decide, if_true]
    rw [macLoop]; simp only [show ¬ (2 + 2 + 2 + 2 + 2 + 2: Nat) < 12 by decide, if_false]
    simp [List.intercalate]
  · rw [if_neg h]
    unfold serverMacAddress
    simp only [substr, gt_iff_lt, Nat.not_lt_zero, if_false, List.drop_zero]
    rw [macLoop]; simp only [substr, show (2 : Nat) < 12 by decide, if_true]
    split_ifs with c2
    · rfl
    · simp only []
      rw [macLoop]; simp only [substr, show (2 + 2 : Nat) < 12 by decide, if_true]
      split_ifs with c4
      · rfl
      · simp only []
        rw [macLoop]; simp only [substr, show (2 + 2 + 2 : Nat) < 12 by decide, if_true]
        split_ifs with c6
        · rfl
        · simp only []
          rw [macLoop]; simp only [substr, show (2 + 2 + 2 + 2 : Nat) < 12 by decide, if_true]
          split_ifs with c8
          · rfl
          · simp only []
            rw [macLoop]
            simp only [substr, show (2 + 2 + 2 + 2 + 2 : Nat) < 12 by decide, if_true]
            split_ifs with c10
            · rfl
            · exfalso; omega

/-- The write-back of lines 151-164 when the derivation succeeds. -/
theorem storeServerMac_of_ok (doc : SettingList) (st : Settings) (s addr : CppString)
    (hs : doc.ServerMAC = some s) (ha : serverMacAddress s = Except.ok addr) :
    storeServerMac doc st = Except.ok
      { status := ADDON_STATUS.ADDON_STATUS_OK, settings := st,
        hostMacWritten := if st.m_hostMACAddress ≠ addr then some addr else none,
        notified := false } := by
  unfold storeServerMac
  rw [hs]
  simp only [ha]

/-- The derivation error of lines 154-158 leaves `ReadBackendSettings` through the
exception. -/
theorem ReadBackendSettings_of_mac_error (Split : CppString → List CppString) (now : Int)
    (doc : SettingList) (st : Settings) (s : CppString) (e : CppException)
    (hs : doc.ServerMAC = some s) (he : serverMacAddress s = Except.error e)
    (hv : ∀ v, doc.NextPVRVersion = some v → 40204 ≤ v) :
    ReadBackendSettings Split now { httpOK := true, document := some doc } st
      = Except.error e := by
  unfold ReadBackendSettings
  simp only [if_true]
  have hstore : ∀ st1, storeServerMac doc st1 = Except.error e := by
    intro st1
    unfold storeServerMac
    rw [hs]
    simp only [he]
  cases hver : doc.NextPVRVersion with
  | none => simp [hstore]
  | some v =>
    have h1 := hv v hver
    have h2 : ¬ v < 40204 := by omega
    simp [h2, hstore]

/-- C9: for a `ServerMAC` string of exactly 12 characters the derived address is the six
consecutive two-character chunks joined by ":"; it has 17 characters, carries ":" at the
positions 2, 5, 8, 11 and 14, and deleting these five characters gives the string back;
the write-back of `ReadBackendSettings` uses this address.  "A1B2C3D4E5F6" gives
"A1:B2:C3:D4:E5:F6". -/
theorem C9_server_mac_of_twelve_characters (s : CppString) (h : s.length = 12) :
    ∃ addr : CppString,
      serverMacAddress s = Except.ok addr ∧
      addr = List.intercalate ":".toList
        ((List.range 6).map (fun k => (s.drop (2 * k)).take 2)) ∧
      (∀ k, k < 6 → ((s.drop (2 * k)).take 2).length = 2) ∧
      addr.length = 17 ∧
      (∀ i, i ∈ [2, 5, 8, 11, 14] → addr[i]? = some ':') ∧
      ((((addr.eraseIdx 14).eraseIdx 11).eraseIdx 8).eraseIdx 5).eraseIdx 2 = s ∧
      (∀ (doc : SettingList) (st : Settings), doc.ServerMAC = some s →
        storeServerMac doc st = Except.ok
          { status := ADDON_STATUS.ADDON_STATUS_OK, settings := st,
            hostMacWritten := if st.m_hostMACAddress ≠ addr then some addr else none,
            notified := false }) ∧
      serverMacAddress "A1B2C3D4E5F6".toList = Except.ok "A1:B2:C3:D4:E5:F6".toList := by
  have hok : serverMacAddress s = Except.ok (List.intercalate ":".toList
        ((List.range 6).map (fun k => (s.drop (2 * k)).take 2))) := by
    rw [serverMacAddress_eq, if_pos (by omega)]
  refine ⟨_, hok, rfl, ?_, ?_, ?_, ?_, ?_, ?_⟩
  · intro k hk
    simp only [List.length_take, List.length_drop]
    omega
  · obtain ⟨c0, c1, c2, c3, c4, c5, c6, c7, c8, c9, c10, c11, rfl⟩ :
        ∃ c0 c1 c2 c3 c4 c5 c6 c7 c8 c9 c10 c11, s = [c0, c1, c2, c3, c4, c5, c6, c7, c8, c9, c10, c11] := by
      match s, h with
      | [c0, c1, c2, c3, c4, c5, c6, c7, c8, c9, c10, c11], _ =>
        exact ⟨c0, c1, c2, c3, c4, c5, c6, c7, c8, c9, c10, c11, rfl⟩
    rfl
  · obtain ⟨c0, c1, c2, c3, c4, c5, c6, c7, c8, c9, c10, c11, rfl⟩ :
        ∃ c0 c1 c2 c3 c4 c5 c6 c7 c8 c9 c10 c11, s = [c0, c1, c2, c3, c4, c5, c6, c7, c8, c9, c10, c11] := by
      match s, h with
      | [c0, c1, c2, c3, c4, c5, c6, c7, c8, c9, c10, c11], _ =>
        exact ⟨c0, c1, c2, c3, c4, c5, c6, c7, c8, c9, c10, c11, rfl⟩
    intro i hi
    simp only [List.mem_cons, List.mem_singleton, List.not_mem_nil, or_false] at hi
    rcases hi with rfl | rfl | rfl | rfl | rfl <;> rfl
  · obtain ⟨c0, c1, c2, c3, c4, c5, c6, c7, c8, c9, c10, c11, rfl⟩ :
        ∃ c0 c1 c2 c3 c4 c5 c6 c7 c8 c9 c10 c11, s = [c0, c1, c2, c3, c4, c5, c6, c7, c8, c9, c10, c11] := by
      match s, h with
      | [c0, c1, c2, c3, c4, c5, c6, c7, c8, c9, c10, c11], _ =>
        exact ⟨c0, c1, c2, c3, c4, c5, c6, c7, c8, c9, c10, c11, rfl⟩
    rfl
  · intro doc st hs
    exact storeServerMac_of_ok doc st s _ hs hok
  · rw [serverMacAddress_eq]
    rfl

/-- C9 at the string "A1B2C3D4E5F6". -/
theorem C9_server_mac_of_twelve_characters_witness :
    ∃ addr : CppString,
      serverMacAddress "A1B2C3D4E5F6".toList = Except.ok addr ∧ addr.length = 17 ∧
      ((((addr.eraseIdx 14).eraseIdx 11).eraseIdx 8).eraseIdx 5).eraseIdx 2
        = "A1B2C3D4E5F6".toList := by
  obtain ⟨addr, h1, _, _, h4, _, h6, _, _⟩ :=
    C9_server_mac_of_twelve_characters "A1B2C3D4E5F6".toList (by decide)
  exact ⟨addr, h1, h4, h6⟩

/-- C10: the server-MAC derivation completes exactly for `ServerMAC` strings of at least 10
characters; for a shorter string it raises `out_of_range`, and `ReadBackendSettings` then
ends with that exception instead of a status; for a string of more than 12 characters only
the first 12 are used. -/
theorem C10_server_mac_derivation_not_total (s : CppString) :
    ((∃ addr, serverMacAddress s = Except.ok addr) ↔ 10 ≤ s.length) ∧
    (s.length < 10 →
      serverMacAddress s = Except.error CppException.out_of_range ∧
      ∀ (Split : CppString → List CppString) (now : Int) (doc : SettingList)
        (st : Settings), doc.ServerMAC = some s →
        (∀ v, doc.NextPVRVersion = some v → 40204 ≤ v) →
        ReadBackendSettings Split now { httpOK := true, document := some doc } st
          = Except.error CppException.out_of_range) ∧
    (12 < s.length → serverMacAddress s = serverMacAddress (s.take 12)) := by
  refine ⟨?_, ?_, ?_⟩
  · rw [serverMacAddress_eq]
    by_cases h : 10 ≤ s.length
    · simp [h]
    · simp [h]
  · intro h
    have he : serverMacAddress s = Except.error CppException.out_of_range := by
      rw [serverMacAddress_eq, if_neg (by omega)]
    refine ⟨he, ?_⟩
    intro Split now doc st hs hv
    exact ReadBackendSettings_of_mac_error Split now doc st s _ hs he hv
  · intro h
    rw [serverMacAddress_eq, serverMacAddress_eq]
    have hl : (s.take 12).length = 12 := by
      rw [List.length_take]; omega
    rw [if_pos (by omega), if_pos (by omega)]
    have e : (List.range 6) = [0, 1, 2, 3, 4, 5] := by decide
    rw [e]
    simp only [List.map_cons, List.map_nil]
    have key : ∀ k, k ≤ 5 → ((s.take 12).drop (2 * k)).take 2 = (s.drop (2 * k)).take 2 := by
      intro k hk
      rw [List.drop_take, List.take_take]
      congr 1
      omega
    rw [key 0 (by omega), key 1 (by omega), key 2 (by omega), key 3 (by omega),
      key 4 (by omega), key 5 (by omega)]

/-- C10 at the strings "A1B2" and "A1B2C3D4E5F6XY". -/
theorem C10_server_mac_derivation_not_total_witness :
    serverMacAddress "A1B2".toList = Except.error CppException.out_of_range ∧
    serverMacAddress "A1B2C3D4E5F6XY".toList
      = serverMacAddress ("A1B2C3D4E5F6XY".toList.take 12) :=
  ⟨((C10_server_mac_derivation_not_total "A1B2".toList).2.1 (by decide)).1,
   (C10_server_mac_derivation_not_total "A1B2C3D4E5F6XY".toList).2.2 (by decide)⟩

/-- When the `ServerMAC` element is absent or holds at least 10 characters,
`ReadBackendSettings` returns, with the permanent-failure status exactly for a reply that is
HTTP OK, parses and carries a version below 40204, and with the OK status otherwise. -/
theorem ReadBackendSettings_status_of_usable_mac (Split : CppString → List CppString)
    (now : Int) (reply : BackendReply) (s : Settings)
    (hmac : ∀ doc m, reply.document = some doc → doc.ServerMAC = some m → 10 ≤ m.length) :
    ∃ out, ReadBackendSettings Split now reply s = Except.ok out ∧
      (out.status = ADDON_STATUS.ADDON_STATUS_PERMANENT_FAILURE ↔
        (reply.httpOK = true ∧ ∃ doc v, reply.document = some doc ∧
          doc.NextPVRVersion = some v ∧ v < 40204)) ∧
      (out.status ≠ ADDON_STATUS.ADDON_STATUS_PERMANENT_FAILURE →
        out.status = ADDON_STATUS.ADDON_STATUS_OK) := by
  have hstore : ∀ doc st, reply.document = some doc →
      ∃ out, storeServerMac doc st = Except.ok out ∧
        out.status = ADDON_STATUS.ADDON_STATUS_OK := by
    intro doc st hdoc
    unfold storeServerMac
    cases hm : doc.ServerMAC with
    | none => exact ⟨_, rfl, rfl⟩
    | some m =>
      have hlen := hmac doc m hdoc hm
      simp only [serverMacAddress_eq, if_pos hlen]
      exact ⟨_, rfl, rfl⟩
  unfold ReadBackendSettings
  cases hhttp : reply.httpOK with
  | false =>
    refine ⟨_, rfl, ?_, fun _ => rfl⟩
    simp
  | true =>
    simp only [if_true]
    cases hdoc : reply.document with
    | none =>
      refine ⟨_, rfl, ?_, fun _ => rfl⟩
      simp
    | some doc =>
      simp only []
      cases hver : doc.NextPVRVersion with
      | none =>
        obtain ⟨out, ho, hst⟩ := hstore doc (loadServerPreferences Split now doc s) hdoc
        refine ⟨out, ?_, ?_, fun _ => hst⟩
        · simp [ho]
        · simp [hst, hver]
      | some v =>
        by_cases hlt : v < 40204
        · refine ⟨_, by simp [hlt]; rfl, ?_, ?_⟩
          · simp [hlt, hver]
          · intro h; exact absurd rfl h
        · obtain ⟨out, ho, hst⟩ := hstore doc
            (loadServerPreferences Split now doc { s with m_backendVersion := v }) hdoc
          refine ⟨out, ?_, ?_, fun _ => hst⟩
          · simp [hlt, ho]
          · simp [hst, hver, hlt]

/-- C5 (evaluation at the failing input): on a reply that is HTTP OK, parses, reports
version 50000 and carries the `ServerMAC` string "AB", `ReadBackendSettings` returns no
status: it ends with the `out_of_range` exception. -/
theorem C5_short_server_mac_raises (Split : CppString → List CppString) (now : Int)
    (st : Settings) :
    ReadBackendSettings Split now
      { httpOK := true,
        document := some
          { NextPVRVersion := some 50000, PrePadding := none, PostPadding := none,
            ShowNewInGuide := none, RecordingDirectories := none, TimeEpoch := none,
            SlipSeconds := none, ServerMAC := some "AB".toList } } st
      = Except.error CppException.out_of_range := by
  apply ReadBackendSettings_of_mac_error Split now _ st "AB".toList _ rfl
  · rw [serverMacAddress_eq]; rfl
  · intro v hv
    have : v = 50000 := (Option.some.inj hv).symm
    omega

theorem castInt_of_inInt (x : Int) (h : InInt x) : castInt x = x := by
  unfold InInt at h
  unfold castInt
  rw [Int.emod_eq_of_lt (by omega) (by omega)]
  omega

theorem wrapInt64_of_inInt64 (x : Int) (h : InInt64 x) : wrapInt64 x = x := by
  unfold InInt64 at h
  unfold wrapInt64
  rw [Int.emod_eq_of_lt (by omega) (by omega)]
  omega

/-- C6 (as amended): on a stream with a non-zero live start time, with
`elapsed = now - startTime - 10` within the range of `int`, `Duration` returns 0 and clears
liveness when `elapsed <= 0`; when `elapsed > 0` it returns `elapsed`, changes nothing but
the liveness flag and, `L - P` and `(L - P) * (L / elapsed)` being within the range of
`int64_t`, leaves liveness false exactly when `(L - P) * (L / elapsed) < 10` and true
otherwise.  With a live start time of 0 it returns the nominal duration and changes no
state. -/
theorem C6_duration_and_liveness {H : Type} (ops : StreamOps H) (now : Int)
    (b : RecordingBuffer H) :
    (b.m_recordingTime ≠ 0 → InInt (now - b.m_recordingTime - 10) →
      now - b.m_recordingTime - 10 ≤ 0 →
      RecordingBuffer.Duration ops now b = (0, { b with m_isLive := false })) ∧
    (b.m_recordingTime ≠ 0 → InInt (now - b.m_recordingTime - 10) →
      0 < now - b.m_recordingTime - 10 →
      (RecordingBuffer.Duration ops now b).1 = now - b.m_recordingTime - 10 ∧
      (RecordingBuffer.Duration ops now b).2 =
        { b with m_isLive := (RecordingBuffer.Duration ops now b).2.m_isLive } ∧
      (InInt64 (ops.GetLength b.m_inputHandle - ops.GetPosition b.m_inputHandle) →
        InInt64 ((ops.GetLength b.m_inputHandle - ops.GetPosition b.m_inputHandle)
          * (ops.GetLength b.m_inputHandle).tdiv (now - b.m_recordingTime - 10)) →
        ((RecordingBuffer.Duration ops now b).2.m_isLive = false ↔
          (ops.GetLength b.m_inputHandle - ops.GetPosition b.m_inputHandle)
            * (ops.GetLength b.m_inputHandle).tdiv (now - b.m_recordingTime - 10) < 10) ∧
        ((RecordingBuffer.Duration ops now b).2.m_isLive = true ↔
          ¬ (ops.GetLength b.m_inputHandle - ops.GetPosition b.m_inputHandle)
            * (ops.GetLength b.m_inputHandle).tdiv (now - b.m_recordingTime - 10) < 10))) ∧
    (b.m_recordingTime = 0 →
      RecordingBuffer.Duration ops now b = (b.m_Duration, b)) := by
  refine ⟨?_, ?_, ?_⟩
  · intro h0 hr hle
    unfold RecordingBuffer.Duration
    rw [if_pos h0]
    simp only []
    rw [castInt_of_inInt _ hr, if_neg (by omega)]
  · intro h0 hr hlt
    unfold RecordingBuffer.Duration
    rw [if_pos h0]
    simp only []
    rw [castInt_of_inInt _ hr, if_pos (by omega)]
    split_ifs with hc
    · refine ⟨rfl, rfl, ?_⟩
      intro h1 h2
      rw [wrapInt64_of_inInt64 _ h1, wrapInt64_of_inInt64 _ h2] at hc
      exact ⟨⟨fun _ => hc, fun _ => rfl⟩, by simp [hc]⟩
    · refine ⟨rfl, rfl, ?_⟩
      intro h1 h2
      rw [wrapInt64_of_inInt64 _ h1, wrapInt64_of_inInt64 _ h2] at hc
      exact ⟨⟨fun h => by simp at h, fun h => absurd h hc⟩, by simp [hc]⟩
  · intro h0
    unfold RecordingBuffer.Duration
    rw [if_neg (by simp [h0])]

/-- C6 (as amended) at the two examples of the specification: 5 seconds after the start
`Duration` returns 0 and clears liveness; 100 seconds after the start, with 1000 bytes of
which 999 are read, it returns 90 and, the product `1 * (1000 / 90)` being 11, leaves
liveness true; with no live start time it returns the nominal duration. -/
theorem C6_duration_and_liveness_witness :
    RecordingBuffer.Duration plainFileOps 1005 (liveBuffer 1000 1000 999)
      = (0, { liveBuffer 1000 1000 999 with m_isLive := false }) ∧
    (RecordingBuffer.Duration plainFileOps 1100 (liveBuffer 1000 1000 999)).1 = 90 ∧
    (RecordingBuffer.Duration plainFileOps 1100 (liveBuffer 1000 1000 999)).2.m_isLive = true ∧
    RecordingBuffer.Duration plainFileOps 1100 (liveBuffer 0 1000 999)
      = (3600, liveBuffer 0 1000 999) :=
  ⟨(C6_duration_and_liveness plainFileOps 1005 (liveBuffer 1000 1000 999)).1
      (by decide) (by decide) (by decide),
   ((C6_duration_and_liveness plainFileOps 1100 (liveBuffer 1000 1000 999)).2.1
      (by decide) (by decide) (by decide)).1,
   (((C6_duration_and_liveness plainFileOps 1100 (liveBuffer 1000 1000 999)).2.1
      (by decide) (by decide) (by decide)).2.2 (by decide) (by decide)).2.mpr (by decide),
   (C6_duration_and_liveness plainFileOps 1100 (liveBuffer 0 1000 999)).2.2 rfl⟩

/-- C6 (counterexample): with live start time 1 and wall clock 2147483700 the value
`now - startTime - 10` is 2147483689, positive but beyond the range of `int`; the converted
`diff` is negative, so `Duration` returns 0 and clears liveness instead of returning the
elapsed time. -/
theorem C6_elapsed_beyond_int_returns_zero :
    (0 : Int) < 2147483700 - (liveBuffer 1 1000 0).m_recordingTime - 10 ∧
    (RecordingBuffer.Duration plainFileOps 2147483700 (liveBuffer 1 1000 0)).1 = 0 ∧
    (RecordingBuffer.Duration plainFileOps 2147483700 (liveBuffer 1 1000 0)).2.m_isLive
      = false := by
  refine ⟨by decide, by decide, by decide⟩

/-- A stream instance without live start time keeps its liveness flag through every
operation. -/
theorem step_of_no_live_start {H : Type} (ops : StreamOps H) (b : RecordingBuffer H)
    (c : BufferCall) (h0 : b.m_recordingTime = 0) :
    (RecordingBuffer.step ops b c).m_recordingTime = 0 ∧
    (RecordingBuffer.step ops b c).m_isLive = b.m_isLive := by
  cases c with
  | Duration now =>
    show (RecordingBuffer.Duration ops now b).2.m_recordingTime = 0 ∧
      (RecordingBuffer.Duration ops now b).2.m_isLive = b.m_isLive
    unfold RecordingBuffer.Duration
    rw [if_neg (by simp [h0])]
    exact ⟨h0, rfl⟩
  | Read now length =>
    show (RecordingBuffer.Read ops b length).buffer.m_recordingTime = 0 ∧
      (RecordingBuffer.Read ops b length).buffer.m_isLive = b.m_isLive
    unfold RecordingBuffer.Read
    simp only []
    split_ifs
    · exact ⟨h0, rfl⟩
    · exact ⟨h0, rfl⟩

theorem run_of_no_live_start {H : Type} (ops : StreamOps H) (calls : List BufferCall) :
    ∀ b : RecordingBuffer H, b.m_recordingTime = 0 →
      (RecordingBuffer.run ops b calls).m_recordingTime = 0 ∧
      (RecordingBuffer.run ops b calls).m_isLive = b.m_isLive := by
  induction calls with
  | nil => intro b h0; exact ⟨h0, rfl⟩
  | cons c rest ih =>
    intro b h0
    have hs := step_of_no_live_start ops b c h0
    have hr := ih (RecordingBuffer.step ops b c) hs.1
    show (RecordingBuffer.run ops (RecordingBuffer.step ops b c) rest).m_recordingTime = 0 ∧
      (RecordingBuffer.run ops (RecordingBuffer.step ops b c) rest).m_isLive = b.m_isLive
    exact ⟨hr.1, hr.2.trans hs.2⟩

/-- C4 (as amended): when the nominal end time of the recording (start + nominal duration)
is not after the wall clock at `Open`, the live start time is 0 and the liveness flag is
false after `Open` and after every later sequence of `Duration` and `Read` calls on that
instance. -/
theorem C4_finished_at_open_never_live {H : Type} (ops : StreamOps H)
    (now serverTimeOffset : Int) (b : RecordingBuffer H) (inputUrl : CppString)
    (recording : PVRRecording) (calls : List BufferCall)
    (hpast : recording.recordingTime + recording.duration ≤ now) :
    (RecordingBuffer.run ops
      (RecordingBuffer.Open ops now serverTimeOffset b inputUrl recording).1 calls).m_isLive
        = false ∧
    (RecordingBuffer.run ops
      (RecordingBuffer.Open ops now serverTimeOffset b inputUrl recording).1
        calls).m_recordingTime = 0 := by
  have hnot : ¬ (recording.duration + recording.recordingTime > now) := by omega
  have hopen0 : (RecordingBuffer.Open ops now serverTimeOffset b inputUrl
      recording).1.m_recordingTime = 0 := by
    simp [RecordingBuffer.Open, hnot]
  have hopenL : (RecordingBuffer.Open ops now serverTimeOffset b inputUrl
      recording).1.m_isLive = false := by
    simp [RecordingBuffer.Open, hnot]
  have hr := run_of_no_live_start ops calls _ hopen0
  exact ⟨hr.2.trans hopenL, hr.1⟩

/-- C4 (as amended) on a recording that ended at time 1100, opened at time 1100 and then
polled and read. -/
theorem C4_finished_at_open_never_live_witness :
    (RecordingBuffer.run plainFileOps
      (RecordingBuffer.Open plainFileOps 1100 0 (freshBuffer 1000000) [] shortRecording).1
      [BufferCall.Duration 2000, BufferCall.Read 2001 10, BufferCall.Duration 3000]).m_isLive
        = false :=
  (C4_finished_at_open_never_live plainFileOps 1100 0 (freshBuffer 1000000) []
    shortRecording [BufferCall.Duration 2000, BufferCall.Read 2001 10, BufferCall.Duration 3000]
    (by decide)).1

/-- C4 (counterexample): a recording with start 1000 and nominal duration 100 is opened at
time 1001 on a file of 1000000 bytes.  A `Duration` call at time 1005 clears the liveness
flag; the `Duration` call at time 2000, past the nominal end time 1100, sets it again. -/
theorem C4_live_again_after_nominal_end :
    shortRecording.recordingTime + shortRecording.duration < 2000 ∧
    (1001 ≤ (BufferCall.Duration 1005).time ∧
      (BufferCall.Duration 1005).time ≤ (BufferCall.Duration 2000).time) ∧
    (RecordingBuffer.run plainFileOps
      (RecordingBuffer.Open plainFileOps 1001 0 (freshBuffer 1000000) [] shortRecording).1
      [BufferCall.Duration 2000]).m_isLive = true ∧
    (RecordingBuffer.run plainFileOps
      (RecordingBuffer.Open plainFileOps 1001 0 (freshBuffer 1000000) [] shortRecording).1
      [BufferCall.Duration 1005]).m_isLive = false ∧
    (RecordingBuffer.run plainFileOps
      (RecordingBuffer.Open plainFileOps 1001 0 (freshBuffer 1000000) [] shortRecording).1
      [BufferCall.Duration 1005, BufferCall.Duration 2000]).m_isLive = true := by
  refine ⟨by decide, by decide, ?_, ?_, ?_⟩ <;> decide

theorem fromFirstSetting_append (l : List TiXmlNode) :
    (fromFirstSetting l).1 ++ (fromFirstSetting l).2 = l := by
  induction l with
  | nil => rfl
  | cons n rest ih =>
    unfold fromFirstSetting
    split_ifs
    · rfl
    · simp only [List.cons_append, ih]

/-- The search starts at or before every `setting` element. -/
theorem fromFirstSetting_before (target : TiXmlNode) (after : List TiXmlNode)
    (ht : target.isElementNamed "setting".toList = true) :
    ∀ before : List TiXmlNode, ∃ mid,
      before = (fromFirstSetting (before ++ target :: after)).1 ++ mid ∧
      (fromFirstSetting (before ++ target :: after)).2 = mid ++ target :: after := by
  intro before
  induction before with
  | nil =>
    refine ⟨[], ?_, ?_⟩
    · show [] = (fromFirstSetting (target :: after)).1 ++ []
      unfold fromFirstSetting
      rw [if_pos ht]
      rfl
    · show (fromFirstSetting (target :: after)).2 = target :: after
      unfold fromFirstSetting
      rw [if_pos ht]
  | cons n rest ih =>
    obtain ⟨mid, h1, h2⟩ := ih
    by_cases hn : n.isElementNamed "setting".toList = true
    · refine ⟨n :: rest, ?_, ?_⟩
      · show n :: rest = (fromFirstSetting (n :: (rest ++ target :: after))).1 ++ (n :: rest)
        unfold fromFirstSetting
        rw [if_pos hn]
        rfl
      · show (fromFirstSetting (n :: (rest ++ target :: after))).2
          = (n :: rest) ++ target :: after
        unfold fromFirstSetting
        rw [if_pos hn]
        rfl
    · refine ⟨mid, ?_, ?_⟩
      · show n :: rest = (fromFirstSetting (n :: (rest ++ target :: after))).1 ++ mid
        unfold fromFirstSetting
        rw [if_neg hn]
        simp only [List.cons_append]
        rw [← h1]
      · show (fromFirstSetting (n :: (rest ++ target :: after))).2 = mid ++ target :: after
        unfold fromFirstSetting
        rw [if_neg hn]
        exact h2

theorem settingLoop_notFound (name value : CppString) (l : List TiXmlNode)
    (h : ∀ n, n ∈ l → n.hasId name = false) :
    settingLoop name value l = LoopResult.notFound := by
  induction l with
  | nil => rfl
  | cons n rest ih =>
    have hrest := ih (fun m hm => h m (List.mem_cons_of_mem _ hm))
    have hn := h n (List.mem_cons_self _ _)
    cases n with
    | Element tag attributes children =>
      have hq : ¬ QueryStringAttribute attributes "id".toList = some name := by
        simpa [TiXmlNode.hasId] using hn
      simp only [settingLoop]
      rw [if_neg hq, hrest]
      rfl
    | Text v => simp only [settingLoop, hrest, LoopResult.after]
    | Comment v => simp only [settingLoop, hrest, LoopResult.after]
    | Unknown v => simp only [settingLoop, hrest, LoopResult.after]

theorem settingLoop_found (name value : CppString) (tag : CppString)
    (attributes : List (CppString × CppString)) (firstChild : TiXmlNode)
    (others after : List TiXmlNode)
    (hq : QueryStringAttribute attributes "id".toList = some name) :
    ∀ before : List TiXmlNode, (∀ n, n ∈ before → n.hasId name = false) →
      settingLoop name value
          (before ++ TiXmlNode.Element tag attributes (firstChild :: others) :: after)
        = LoopResult.found
          (before ++ TiXmlNode.Element tag attributes
            (firstChild.SetValue value :: others) :: after) := by
  intro before
  induction before with
  | nil =>
    intro _
    simp only [List.nil_append, settingLoop]
    rw [if_pos hq]
  | cons n rest ih =>
    intro h
    have hrest := ih (fun m hm => h m (List.mem_cons_of_mem _ hm))
    have hn := h n (List.mem_cons_self _ _)
    cases n with
    | Element tag1 attributes1 children1 =>
      have hq1 : ¬ QueryStringAttribute attributes1 "id".toList = some name := by
        simpa [TiXmlNode.hasId] using hn
      rw [List.cons_append]
      simp only [settingLoop]
      rw [if_neg hq1, hrest]
      rfl
    | Text v =>
      rw [List.cons_append]
      simp only [settingLoop]
      rw [hrest]
      rfl
    | Comment v =>
      rw [List.cons_append]
      simp only [settingLoop]
      rw [hrest]
      rfl
    | Unknown v =>
      rw [List.cons_append]
      simp only [settingLoop]
      rw [hrest]
      rfl

/-- The outcome of `SaveSettings` in terms of the root update, for a document whose first
top-level element with tag "settings" is the given root. -/
theorem saveLoaded_root (name value : CppString) (rootAttributes : List (CppString × CppString))
    (children post : List TiXmlNode) :
    ∀ pre : List TiXmlNode, (∀ n, n ∈ pre → n.isElementNamed "settings".toList = false) →
      saveLoaded name value
          (pre ++ TiXmlNode.Element "settings".toList rootAttributes children :: post)
        = match updateRoot name value children with
          | some children1 =>
            { result := true,
              saved := some (pre ++
                TiXmlNode.Element "settings".toList rootAttributes children1 :: post) }
          | none => { result := false, saved := none } := by
  intro pre
  induction pre with
  | nil =>
    intro _
    simp only [List.nil_append, saveLoaded, if_true]
  | cons n rest ih =>
    intro h
    have hrest := ih (fun m hm => h m (List.mem_cons_of_mem _ hm))
    have hn := h n (List.mem_cons_self _ _)
    cases n with
    | Element tag1 attributes1 children1 =>
      have ht : ¬ tag1 = "settings".toList := by
        simpa [TiXmlNode.isElementNamed] using hn
      rw [List.cons_append]
      simp only [saveLoaded]
      rw [if_neg ht, hrest]
      cases updateRoot name value children <;> rfl
    | Text v =>
      rw [List.cons_append]
      simp only [saveLoaded]
      rw [hrest]
      cases updateRoot name value children <;> rfl
    | Comment v =>
      rw [List.cons_append]
      simp only [saveLoaded]
      rw [hrest]
      cases updateRoot name value children <;> rfl
    | Unknown v =>
      rw [List.cons_append]
      simp only [saveLoaded]
      rw [hrest]
      cases updateRoot name value children <;> rfl

/-- C8 (as amended): for a loaded document with root element `settings`, the entries being
the child elements of the root: when the first entry with id `name` is a `setting` element
whose first child is a text node, `SaveSettings` hands to `SaveFile` the document with that
text replaced by `value` and nothing else changed, and returns true; when no entry has id
`name`, it hands over the document with one new entry `setting` (id `name`, text `value`)
appended after the original children, and returns true. -/
theorem C8_save_settings_updates_or_appends (name value : CppString)
    (pre post children : List TiXmlNode) (rootAttributes : List (CppString × CppString))
    (hroot : ∀ n, n ∈ pre → n.isElementNamed "settings".toList = false) :
    (∀ (before after : List TiXmlNode) (attributes : List (CppString × CppString))
        (old : CppString) (more : List TiXmlNode),
      children = before ++
        TiXmlNode.Element "setting".toList attributes (TiXmlNode.Text old :: more)
          :: after →
      QueryStringAttribute attributes "id".toList = some name →
      (∀ n, n ∈ before → n.hasId name = false) →
      SaveSettings
          (some (pre ++ TiXmlNode.Element "settings".toList rootAttributes children :: post))
          name value
        = { result := true,
            saved := some (pre ++ TiXmlNode.Element "settings".toList rootAttributes
              (before ++
                TiXmlNode.Element "setting".toList attributes
                  (TiXmlNode.Text value :: more) :: after)
              :: post) }) ∧
    ((∀ n, n ∈ children → n.hasId name = false) →
      SaveSettings
          (some (pre ++ TiXmlNode.Element "settings".toList rootAttributes children :: post))
          name value
        = { result := true,
            saved := some (pre ++ TiXmlNode.Element "settings".toList rootAttributes
              (children ++
                [TiXmlNode.Element "setting".toList [("id".toList, name)]
                  [TiXmlNode.Text value]])
              :: post) }) := by
  constructor
  · intro before after attributes old more hchildren hq hfirst
    have htag : (TiXmlNode.Element "setting".toList attributes
        (TiXmlNode.Text old :: more)).isElementNamed "setting".toList = true := by
      unfold TiXmlNode.isElementNamed
      exact decide_eq_true rfl
    obtain ⟨mid, h1, h2⟩ := fromFirstSetting_before _ after htag before
    have hmid : ∀ n, n ∈ mid → n.hasId name = false := by
      intro n hn
      apply hfirst
      rw [h1]
      exact List.mem_append_right _ hn
    have hloop := settingLoop_found name value "setting".toList attributes
      (TiXmlNode.Text old) more after hq mid hmid
    have hupdate : updateRoot name value children
        = some (before ++
            TiXmlNode.Element "setting".toList attributes
              (TiXmlNode.Text value :: more) :: after) := by
      unfold updateRoot
      rw [hchildren, h2, hloop]
      simp only [TiXmlNode.SetValue]
      rw [← List.append_assoc, ← h1]
    show saveLoaded name value _ = _
    rw [saveLoaded_root name value rootAttributes children post pre hroot, hupdate]
  · intro hnone
    have hsub : ∀ n, n ∈ (fromFirstSetting children).2 → n.hasId name = false := by
      intro n hn
      apply hnone
      rw [← fromFirstSetting_append children]
      exact List.mem_append_right _ hn
    have hloop := settingLoop_notFound name value _ hsub
    have hupdate : updateRoot name value children
        = some (children ++ [newSetting name value]) := by
      unfold updateRoot
      rw [hloop]
    show saveLoaded name value _ = _
    rw [saveLoaded_root name value rootAttributes children post pre hroot, hupdate]
    rfl

/-- C8 (as amended) on the two documents of the specification: with an entry of id "x" and
text "old" the text becomes "new"; with no entry of id "x" a new entry is appended. -/
theorem C8_save_settings_updates_or_appends_witness :
    SaveSettings
        (some (settingsDocument [settingEntry "a".toList "1".toList,
          settingEntry "x".toList "old".toList]))
        "x".toList "new".toList
      = { result := true,
          saved := some (settingsDocument [settingEntry "a".toList "1".toList,
            settingEntry "x".toList "new".toList]) } ∧
    SaveSettings (some (settingsDocument [settingEntry "a".toList "1".toList]))
        "x".toList "new".toList
      = { result := true,
          saved := some (settingsDocument [settingEntry "a".toList "1".toList,
            settingEntry "x".toList "new".toList]) } := by
  constructor
  · exact (C8_save_settings_updates_or_appends "x".toList "new".toList [] []
      [settingEntry "a".toList "1".toList, settingEntry "x".toList "old".toList] []
      (fun n hn => absurd hn (List.not_mem_nil n))).1
      [settingEntry "a".toList "1".toList] [] [("id".toList, "x".toList)]
      "old".toList [] rfl rfl
      (by
        intro n hn
        simp only [List.mem_singleton] at hn
        rw [hn]
        rfl)
  · exact (C8_save_settings_updates_or_appends "x".toList "new".toList [] []
      [settingEntry "a".toList "1".toList] []
      (fun n hn => absurd hn (List.not_mem_nil n))).2
      (by
        intro n hn
        simp only [List.mem_singleton] at hn
        rw [hn]
        rfl)

/-- C8 (counterexample): three loadable documents with root element `settings`, saved with
name "x" and value "new".  In the first the entry of id "x" holds a comment before its text
"old": the code overwrites the comment and the text stays "old".  In the second an element
`other` of id "x" with text "old" stands before the first `setting` element: the code
leaves it alone and appends a new entry.  In the third the same element stands after the
first `setting` element: the code rewrites its text and appends nothing. -/
theorem C8_comment_and_foreign_elements :
    (SaveSettings
        (some (settingsDocument
          [TiXmlNode.Element "setting".toList [("id".toList, "x".toList)]
            [TiXmlNode.Comment "c".toList, TiXmlNode.Text "old".toList]]))
        "x".toList "new".toList
      = { result := true,
          saved := some (settingsDocument
            [TiXmlNode.Element "setting".toList [("id".toList, "x".toList)]
              [TiXmlNode.Comment "new".toList, TiXmlNode.Text "old".toList]]) }) ∧
    (SaveSettings
        (some (settingsDocument
          [TiXmlNode.Element "other".toList [("id".toList, "x".toList)]
            [TiXmlNode.Text "old".toList],
           settingEntry "a".toList "1".toList]))
        "x".toList "new".toList
      = { result := true,
          saved := some (settingsDocument
            [TiXmlNode.Element "other".toList [("id".toList, "x".toList)]
              [TiXmlNode.Text "old".toList],
             settingEntry "a".toList "1".toList,
             settingEntry "x".toList "new".toList]) }) ∧
    (SaveSettings
        (some (settingsDocument
          [settingEntry "a".toList "1".toList,
           TiXmlNode.Element "other".toList [("id".toList, "x".toList)]
            [TiXmlNode.Text "old".toList]]))
        "x".toList "new".toList
      = { result := true,
          saved := some (settingsDocument
            [settingEntry "a".toList "1".toList,
             TiXmlNode.Element "other".toList [("id".toList, "x".toList)]
              [TiXmlNode.Text "new".toList]]) }) ∧
    (SaveSettings
        (some (settingsDocument
          [TiXmlNode.Element "setting".toList [("id".toList, "x".toList)]
            [TiXmlNode.Comment "c".toList, TiXmlNode.Text "old".toList]]))
        "x".toList "new".toList).saved
      ≠ some (settingsDocument
          [TiXmlNode.Element "setting".toList [("id".toList, "x".toList)]
            [TiXmlNode.Comment "c".toList, TiXmlNode.Text "new".toList]]) := by
  refine ⟨rfl, rfl, rfl, ?_⟩
  intro h
  have h1 : (SaveSettings
        (some (settingsDocument
          [TiXmlNode.Element "setting".toList [("id".toList, "x".toList)]
            [TiXmlNode.Comment "c".toList, TiXmlNode.Text "old".toList]]))
        "x".toList "new".toList).saved
      = some (settingsDocument
            [TiXmlNode.Element "setting".toList [("id".toList, "x".toList)]
              [TiXmlNode.Comment "new".toList, TiXmlNode.Text "old".toList]]) := rfl
  rw [h1] at h
  simp [settingsDocument] at h

end NextPVR
